import Mathlib

/-!
Verification of the game-state machine of the secret-sleuth party game:
session lifecycle, role assignment, clue disclosure, joining, voting and
winner determination, shallowly embedded from the client components
(GameLobby, GamePlay, VotingPhase, GameResults, JoinGameModal).
-/

namespace SecretSleuth

/-- The `player_role` enum of the datastore: detective or murderer. -/
inductive Role where
  | detective
  | murderer
deriving DecidableEq, Repr

/-- The `game_status` enum: the session lifecycle states. -/
inductive GameStatus where
  | waiting
  | in_progress
  | voting
  | completed
deriving DecidableEq, Repr

/-- A `stories` row (fields relevant to the game logic). -/
structure Story where
  id : String
  min_players : Nat
  max_players : Nat
  total_rounds : Nat
deriving DecidableEq, Repr

/-- A `characters` row (fields relevant to the game logic). -/
structure Character where
  id : String
  story_id : String
  name : String
deriving DecidableEq, Repr, Inhabited

/-- A `game_sessions` row. `password` is `Option String`: the creation path
stores `password || null`, so an absent password is `none`. -/
structure GameSession where
  id : String
  story_id : String
  host_id : String
  session_code : String
  password : Option String
  status : GameStatus
  current_round : Nat
  max_rounds : Nat
deriving DecidableEq, Repr

/-- A `game_players` row: one user's membership in one session. -/
structure GamePlayer where
  id : String
  session_id : String
  user_id : String
  character_id : String
  role : Role
deriving DecidableEq, Repr

/-- A `clues` row. The datastore column `is_for_murderer` is nullable; the
client uses it as a JS truthiness test, under which `null` behaves as
`false`, so it is embedded as `Bool`. -/
structure Clue where
  id : String
  story_id : String
  round_number : Nat
  is_for_murderer : Bool
deriving DecidableEq, Repr

/-- A `votes` row: `voter_id` accuses `accused_id` within a session. -/
structure Vote where
  id : String
  session_id : String
  voter_id : String
  accused_id : String
deriving DecidableEq, Repr

/-! ## Clue disclosure filter (GamePlay.fetchGameData)

The client computes, for each clue of the story,
`isVisible: clue.round_number <= session.current_round &&
  (clue.is_for_murderer ? isMurderer : !clue.is_for_murderer)`
and renders exactly the clues whose `isVisible` is true. -/

/-- The per-clue visibility bit computed in `fetchGameData`. -/
def isVisible (clue : Clue) (currentRound : Nat) (isMurderer : Bool) : Bool :=
  decide (clue.round_number ≤ currentRound) &&
    (if clue.is_for_murderer then isMurderer else !clue.is_for_murderer)

/-- The clues a viewer actually sees: `fetchGameData` fetches the story's
clues with `round_number <= current_round` and the render keeps those with
`isVisible` true. -/
def visibleClues (clues : List Clue) (currentRound : Nat) (isMurderer : Bool) :
    List Clue :=
  (clues.filter (fun c => decide (c.round_number ≤ currentRound))).filter
    (fun c => isVisible c currentRound isMurderer)

/-- The disclosure rule as the specification words it: a murderer viewer
sees only murderer-flagged clues, a detective viewer only unflagged ones
(disjoint role-gated streams), both round-gated. Kept separate from
`isVisible` so the two can be compared. -/
def specVisible (clue : Clue) (currentRound : Nat) (isMurderer : Bool) : Bool :=
  decide (clue.round_number ≤ currentRound) &&
    (if isMurderer then clue.is_for_murderer else !clue.is_for_murderer)

/-! ## Round advance (GamePlay.nextRound)

`nextRound` runs on the client of the user `callerId`; it returns
immediately when that user is not the host (`if (!isHost) return`).
Otherwise it writes `current_round := current_round + 1` and sets the
status to `voting` exactly when the new round count equals `max_rounds`
(`if (newRound === session.max_rounds) newStatus = 'voting'`). -/
def nextRound (callerId : String) (session : GameSession) : GameSession :=
  if callerId ≠ session.host_id then session
  else
    let newRound := session.current_round + 1
    let newStatus :=
      if newRound = session.max_rounds then GameStatus.voting else session.status
    { session with current_round := newRound, status := newStatus }

/-! ## End of voting (VotingPhase.endVoting)

Guarded by `if (!isHost) return`; otherwise updates the session status to
`completed`. -/
def endVoting (callerId : String) (session : GameSession) : GameSession :=
  if callerId ≠ session.host_id then session
  else { session with status := GameStatus.completed }

/-! ## Game start and role assignment (GameLobby.startGame) -/

/-- The player-count threshold `story?.min_players || 3`: when the story is
missing, or `min_players` is `0` (falsy in JS), the fallback `3` is used. -/
def minPlayersOrDefault (story : Option Story) : Nat :=
  match story with
  | none => 3
  | some st => if st.min_players = 0 then 3 else st.min_players

/-- The role-update loop of `startGame`: over the shuffled player list,
the player at `murdererIndex` becomes the murderer and every other player
becomes a detective (`role = i === murdererIndex ? 'murderer' : 'detective'`).
Each iteration updates one row keyed by the player's unique id, so the
session's post-state players are exactly this list (up to row order). -/
def assignRoles (shuffled : List GamePlayer) (murdererIndex : Nat) :
    List GamePlayer :=
  shuffled.enum.map (fun ie =>
    { ie.2 with
      role := if ie.1 = murdererIndex then Role.murderer else Role.detective })

/-- Errors surfaced by `startGame`. -/
inductive StartError where
  | notEnoughPlayers
deriving DecidableEq, Repr

/-- `startGame`, run on the client of `callerId` (the body performs no
host check — the lobby merely renders the start control for the host
only). The randomness is passed in: `shuffled` stands for
`[...players].sort(() => Math.random() - 0.5)` (a permutation of
`players`) and `murdererIndex` for `Math.floor(Math.random() *
shuffledPlayers.length)`. Below the player-count guard, the code updates
every player's role and then the session to `status = 'in_progress',
current_round = 1`. -/
def startGame (callerId : String) (session : GameSession)
    (players : List GamePlayer) (story : Option Story)
    (shuffled : List GamePlayer) (murdererIndex : Nat) :
    Except StartError (GameSession × List GamePlayer) :=
  if players.length < minPlayersOrDefault story then
    Except.error StartError.notEnoughPlayers
  else
    Except.ok
      ({ session with status := GameStatus.in_progress, current_round := 1 },
        assignRoles shuffled murdererIndex)

/-! ## Joining a session (JoinGameModal.joinGame) -/

/-- Errors surfaced by `joinGame`, in the order its guards occur. -/
inductive JoinError where
  | emptyCode
  | notFound
  | wrongPassword
  | notJoinable
  | gameFull
  | noCharactersAvailable
deriving DecidableEq, Repr

/-- The available character pool: the story's characters minus the ones
already taken (`characters.filter(c => !takenCharacterIds.includes(c.id))`
with `takenCharacterIds = players.map(p => p.character_id)`). -/
def availableCharacters (players : List GamePlayer)
    (characters : List Character) : List Character :=
  characters.filter (fun c =>
    !(players.map (fun p => p.character_id)).contains c.id)

/-- The part of `joinGame` below the session lookup, for a resolved
`session`. Guards, in source order: password mismatch (only when the
session has a password), status not `waiting`, idempotent re-use for an
existing membership, capacity (`players.length >= story.max_players`),
empty character pool; then a random available character is drawn
(`pick` stands for `Math.floor(Math.random() * availableCharacters.length)`,
taken modulo the pool size so any value is in range) and a new
detective-role player row is inserted. Returns the resulting player, a
flag telling whether a new row was inserted, and the session's player
rows afterwards. -/
def joinSession (session : GameSession) (password userId : String)
    (players : List GamePlayer) (maxPlayers : Nat)
    (characters : List Character) (newPlayerId : String) (pick : Nat) :
    Except JoinError (GamePlayer × Bool × List GamePlayer) :=
  if session.password.any (fun pw => pw != password) then
    Except.error JoinError.wrongPassword
  else if session.status ≠ GameStatus.waiting then
    Except.error JoinError.notJoinable
  else
    match players.find? (fun p => p.user_id == userId) with
    | some existingPlayer => Except.ok (existingPlayer, false, players)
    | none =>
      if maxPlayers ≤ players.length then Except.error JoinError.gameFull
      else
        let available := availableCharacters players characters
        if available.length = 0 then Except.error JoinError.noCharactersAvailable
        else
          let randomCharacter := available.getD (pick % available.length) default
          let newPlayer : GamePlayer :=
            { id := newPlayerId
              session_id := session.id
              user_id := userId
              character_id := randomCharacter.id
              role := Role.detective }
          Except.ok (newPlayer, true, players ++ [newPlayer])

/-- Full `joinGame`: rejects a blank code, resolves the session by
uppercased code (`.eq('session_code', sessionCode.toUpperCase()).single()`),
then proceeds as `joinSession`. -/
def joinGame (sessions : List GameSession) (code password userId : String)
    (players : List GamePlayer) (maxPlayers : Nat)
    (characters : List Character) (newPlayerId : String) (pick : Nat) :
    Except JoinError (GamePlayer × Bool × List GamePlayer) :=
  if code.trim = "" then Except.error JoinError.emptyCode
  else
    match sessions.find? (fun s => s.session_code == code.toUpper) with
    | none => Except.error JoinError.notFound
    | some session =>
      joinSession session password userId players maxPlayers characters
        newPlayerId pick

/-! ## Casting a vote (VotingPhase.castVote) -/

/-- Error surfaced by `castVote`. -/
inductive VoteError where
  | alreadyVoted
deriving DecidableEq, Repr

/-- `castVote`: the client rejects when `userVote` is set — `userVote` is
exactly the accusation of the voter's vote found among the session's
fetched votes (`data?.find(v => v.voter_id === user.id)`), or the vote
just cast. Otherwise a new vote row is inserted; no existing row is ever
updated. -/
def castVote (votes : List Vote) (voteId sessionId voterId accusedId : String) :
    Except VoteError (List Vote) :=
  if (votes.find? (fun v => v.voter_id == voterId)).isSome then
    Except.error VoteError.alreadyVoted
  else
    Except.ok (votes ++
      [{ id := voteId
         session_id := sessionId
         voter_id := voterId
         accused_id := accusedId }])

/-! ## Vote tally and outcome (GameResults) -/

/-- A tally entry: a player together with the votes accusing them. -/
structure TallyEntry where
  player : GamePlayer
  voteCount : Nat
deriving DecidableEq, Repr

/-- `votes.filter(v => v.accused_id === p.user_id).length`. -/
def voteCountFor (votes : List Vote) (p : GamePlayer) : Nat :=
  (votes.filter (fun v => v.accused_id == p.user_id)).length

/-- Stable insertion (descending by `voteCount`): the inserted entry goes
before the first entry whose count is not larger, so among equal counts
earlier entries stay first — the behaviour of the stable JS
`Array.prototype.sort` with comparator `(a, b) => b.voteCount - a.voteCount`. -/
def insertByVotes (x : TallyEntry) : List TallyEntry → List TallyEntry
  | [] => [x]
  | y :: ys =>
    if x.voteCount < y.voteCount then y :: insertByVotes x ys else x :: y :: ys

/-- Stable sort by vote count descending. -/
def sortByVotes : List TallyEntry → List TallyEntry
  | [] => []
  | x :: xs => insertByVotes x (sortByVotes xs)

/-- `voteCounts`: every player paired with their vote count, sorted by
count descending (stable). -/
def voteCounts (players : List GamePlayer) (votes : List Vote) :
    List TallyEntry :=
  sortByVotes (players.map (fun p => { player := p, voteCount := voteCountFor votes p }))

/-- `detectivesWon`: `mostVoted?.player.role === 'murderer' &&
mostVoted.voteCount > 0`, where `mostVoted = voteCounts[0]` (on an empty
list the optional chain yields false). -/
def detectivesWon (players : List GamePlayer) (votes : List Vote) : Bool :=
  match voteCounts players votes with
  | [] => false
  | mostVoted :: _ =>
    decide (mostVoted.player.role = Role.murderer) && decide (0 < mostVoted.voteCount)

/-! ## Concrete demonstration data -/

/-- A demo story: 3 to 8 players, 5 rounds. -/
def demoStory : Story :=
  { id := "story1", min_players := 3, max_players := 8, total_rounds := 5 }

/-- A demo waiting session hosted by user `hostUser`, code ABCD, no
password, 5 rounds. -/
def demoSession : GameSession :=
  { id := "sess1", story_id := "story1", host_id := "hostUser"
    session_code := "ABCD", password := none, status := GameStatus.waiting
    current_round := 0, max_rounds := 5 }

/-- Membership row of the host. -/
def demoPlayer1 : GamePlayer :=
  { id := "p1", session_id := "sess1", user_id := "hostUser"
    character_id := "char1", role := Role.detective }

/-- Membership row of user `bob`. -/
def demoPlayer2 : GamePlayer :=
  { id := "p2", session_id := "sess1", user_id := "bob"
    character_id := "char2", role := Role.detective }

/-- Membership row of user `carol`. -/
def demoPlayer3 : GamePlayer :=
  { id := "p3", session_id := "sess1", user_id := "carol"
    character_id := "char3", role := Role.detective }

/-- The demo session's three players. -/
def demoPlayers : List GamePlayer := [demoPlayer1, demoPlayer2, demoPlayer3]

/-- Three characters of the demo story. -/
def demoCharacters : List Character :=
  [{ id := "char1", story_id := "story1", name := "Colonel" },
   { id := "char2", story_id := "story1", name := "Maid" },
   { id := "char3", story_id := "story1", name := "Butler" }]

/-! ## Helper lemmas -/

/-- Membership through stable insertion. -/
theorem mem_insertByVotes {x y : TallyEntry} :
    ∀ {l : List TallyEntry}, y ∈ insertByVotes x l ↔ y = x ∨ y ∈ l := by
  intro l
  induction l with
  | nil => simp [insertByVotes]
  | cons z zs ih =>
    simp only [insertByVotes]
    split
    · simp only [List.mem_cons, ih]
      tauto
    · simp [List.mem_cons]

/-- Stable sorting preserves membership. -/
theorem mem_sortByVotes {y : TallyEntry} :
    ∀ {l : List TallyEntry}, y ∈ sortByVotes l ↔ y ∈ l := by
  intro l
  induction l with
  | nil => simp [sortByVotes]
  | cons z zs ih =>
    simp only [sortByVotes, mem_insertByVotes, ih, List.mem_cons]

/-- With no votes at all, every tally entry counts zero. -/
theorem voteCount_zero_of_mem_no_votes {players : List GamePlayer}
    {e : TallyEntry} (h : e ∈ voteCounts players []) : e.voteCount = 0 := by
  have hm : e ∈ players.map
      (fun p => (⟨p, voteCountFor [] p⟩ : TallyEntry)) :=
    mem_sortByVotes.mp h
  rcases List.mem_map.mp hm with ⟨p, _, rfl⟩
  rfl

/-! ## C1: clue disclosure -/

/-- C1 counterexample: an unflagged round-1 clue is visible to a murderer
viewer at round 1 (`isVisible` is true), while the claimed disjoint
role-gating (`specVisible`) would hide it — a murderer viewer does not
see only `is_for_murderer = true` clues. -/
theorem murderer_sees_unflagged_clue :
    isVisible { id := "clue1", story_id := "story1", round_number := 1,
                is_for_murderer := false } 1 true = true ∧
    specVisible { id := "clue1", story_id := "story1", round_number := 1,
                  is_for_murderer := false } 1 true = false ∧
    visibleClues [{ id := "clue1", story_id := "story1", round_number := 1,
                    is_for_murderer := false }] 1 true =
      [{ id := "clue1", story_id := "story1", round_number := 1,
         is_for_murderer := false }] := by
  refine ⟨rfl, rfl, rfl⟩

/-- C1 (amended): a clue is visible iff `round_number ≤ current_round`
and (`is_for_murderer → viewer is the murderer`): a detective viewer sees
only unflagged clues, but a murderer viewer sees every clue up to the
current round, flagged or not — the two streams are round- and role-gated
yet not disjoint. -/
theorem clue_disclosure (clues : List Clue) (currentRound : Nat)
    (isMurderer : Bool) (c : Clue) :
    (c ∈ visibleClues clues currentRound isMurderer ↔
      c ∈ clues ∧ c.round_number ≤ currentRound ∧
        (c.is_for_murderer = true → isMurderer = true)) ∧
    (c ∈ visibleClues clues currentRound false → c.is_for_murderer = false) ∧
    (c ∈ clues → c.round_number ≤ currentRound →
      c ∈ visibleClues clues currentRound true) := by
  have hmain : c ∈ visibleClues clues currentRound isMurderer ↔
      c ∈ clues ∧ c.round_number ≤ currentRound ∧
        (c.is_for_murderer = true → isMurderer = true) := by
    simp only [visibleClues, List.mem_filter, isVisible, Bool.and_eq_true,
      decide_eq_true_eq]
    cases hf : c.is_for_murderer <;> cases isMurderer <;> simp
  have haux : ∀ b : Bool, c ∈ visibleClues clues currentRound b ↔
      c ∈ clues ∧ c.round_number ≤ currentRound ∧
        (c.is_for_murderer = true → b = true) := by
    intro b
    simp only [visibleClues, List.mem_filter, isVisible, Bool.and_eq_true,
      decide_eq_true_eq]
    cases hf : c.is_for_murderer <;> cases b <;> simp
  refine ⟨hmain, ?_, ?_⟩
  · intro h
    rcases (haux false).mp h with ⟨_, _, himp⟩
    cases hf : c.is_for_murderer with
    | false => rfl
    | true => exact absurd (himp hf) (by simp)
  · intro hc hr
    exact (haux true).mpr ⟨hc, hr, fun _ => rfl⟩

/-- C1 witness: an unflagged round-1 clue is visible to the murderer at
round 1. -/
theorem clue_disclosure_witness :
    (Clue.mk "clue1" "story1" 1 false) ∈
      visibleClues [Clue.mk "clue1" "story1" 1 false] 1 true :=
  (clue_disclosure [Clue.mk "clue1" "story1" 1 false] 1 true
    (Clue.mk "clue1" "story1" 1 false)).2.2
    (List.mem_singleton.mpr rfl) (by decide)

/-! ## C2: outcome determination -/

/-- C2: the detectives win iff the head of the descending stable sort of
the vote tally is a player with role murderer who received at least one
vote; in every other case — including when no votes were cast at all —
the murderer wins. -/
theorem outcome_determination (players : List GamePlayer) (votes : List Vote) :
    (detectivesWon players votes = true ↔
      ∃ top rest, voteCounts players votes = top :: rest ∧
        top.player.role = Role.murderer ∧ 1 ≤ top.voteCount) ∧
    detectivesWon players [] = false := by
  constructor
  · unfold detectivesWon
    cases h : voteCounts players votes with
    | nil => simp
    | cons top rest =>
      simp only [Bool.and_eq_true, decide_eq_true_eq]
      constructor
      · rintro ⟨h1, h2⟩
        exact ⟨top, rest, rfl, h1, h2⟩
      · rintro ⟨top2, rest2, heq, h1, h2⟩
        cases heq
        exact ⟨h1, h2⟩
  · unfold detectivesWon
    cases h : voteCounts players [] with
    | nil => rfl
    | cons top rest =>
      have htop : top ∈ voteCounts players [] := by
        rw [h]; exact List.mem_cons_self top rest
      have h0 : top.voteCount = 0 := voteCount_zero_of_mem_no_votes htop
      simp [h0]

/-- C2 witness: with no votes cast in the three-player demo session, the
detectives do not win. -/
theorem outcome_determination_witness :
    detectivesWon demoPlayers [] = false :=
  (outcome_determination demoPlayers []).2

/-! ## C3: role assignment -/

/-- The murderer count of `assignRoles` is one exactly when the drawn
index is in range. -/
theorem countP_murderer_assignRoles (shuffled : List GamePlayer) (k : Nat) :
    (assignRoles shuffled k).countP (fun p => decide (p.role = Role.murderer)) =
      if k < shuffled.length then 1 else 0 := by
  unfold assignRoles
  rw [List.countP_map]
  have hcongr : ∀ ie ∈ shuffled.enum,
      ((fun p => decide (p.role = Role.murderer)) ∘ (fun ie =>
        ({ ie.2 with role := if ie.1 = k then Role.murderer else Role.detective } :
          GamePlayer))) ie = true ↔ decide (ie.1 = k) = true := by
    intro ie _
    by_cases h : ie.1 = k <;> simp [h]
  rw [List.countP_congr hcongr]
  have hfst : shuffled.enum.map Prod.fst = List.range shuffled.length :=
    List.enum_map_fst shuffled
  have hvia : shuffled.enum.countP (fun ie => decide (ie.1 = k)) =
      (shuffled.enum.map Prod.fst).countP (fun n => decide (n = k)) := by
    rw [List.countP_map]
    rfl
  rw [hvia, hfst]
  have hbeq : ∀ n ∈ List.range shuffled.length,
      decide (n = k) = true ↔ (n == k) = true := by
    intro n _
    by_cases h : n = k <;> simp [h]
  rw [List.countP_congr hbeq]
  by_cases hk : k < shuffled.length
  · rw [if_pos hk]
    have := List.count_eq_one_of_mem (List.nodup_range shuffled.length)
      (List.mem_range.mpr hk)
    simpa [List.count] using this
  · rw [if_neg hk]
    have hnot : k ∉ List.range shuffled.length :=
      fun hmem => hk (List.mem_range.mp hmem)
    have := List.count_eq_zero_of_not_mem hnot
    simpa [List.count] using this

/-- `assignRoles` keeps the player list length. -/
theorem length_assignRoles (shuffled : List GamePlayer) (k : Nat) :
    (assignRoles shuffled k).length = shuffled.length := by
  unfold assignRoles
  rw [List.length_map, List.enum_length]

/-- Every assigned role is murderer or detective, so the detective count
is the complement of the murderer count. -/
theorem countP_detective_assignRoles (shuffled : List GamePlayer) (k : Nat) :
    (assignRoles shuffled k).countP (fun p => decide (p.role = Role.detective)) =
      (assignRoles shuffled k).length -
        (assignRoles shuffled k).countP (fun p => decide (p.role = Role.murderer)) := by
  have hsplit := List.length_eq_countP_add_countP
    (fun p => decide (p.role = Role.murderer)) (assignRoles shuffled k)
  have hcongr : (assignRoles shuffled k).countP
      (fun a => decide ¬decide (a.role = Role.murderer) = true) =
      (assignRoles shuffled k).countP (fun p => decide (p.role = Role.detective)) := by
    apply List.countP_congr
    intro p _
    cases hp : p.role <;> simp [hp]
  rw [hcongr] at hsplit
  omega

/-- C3: a successful start (player count at least the minimum) with any
in-range murderer draw yields exactly one murderer and all other players
detectives, for every player count. -/
theorem exactly_one_murderer (callerId : String) (session : GameSession)
    (players shuffled : List GamePlayer) (story : Option Story)
    (murdererIndex : Nat) (s' : GameSession) (ps' : List GamePlayer)
    (hperm : shuffled.Perm players)
    (hk : murdererIndex < shuffled.length)
    (hok : startGame callerId session players story shuffled murdererIndex =
      Except.ok (s', ps')) :
    ps'.countP (fun p => decide (p.role = Role.murderer)) = 1 ∧
    ps'.countP (fun p => decide (p.role = Role.detective)) = players.length - 1 ∧
    ps'.length = players.length := by
  unfold startGame at hok
  split at hok
  · exact absurd hok (by simp)
  · have hps : ps' = assignRoles shuffled murdererIndex := by
      injection hok with h1
      injection h1 with _ h2
      exact h2.symm
    subst hps
    have hlen' : shuffled.length = players.length := hperm.length_eq
    have hone := countP_murderer_assignRoles shuffled murdererIndex
    rw [if_pos hk] at hone
    refine ⟨hone, ?_, ?_⟩
    · rw [countP_detective_assignRoles, hone, length_assignRoles, hlen']
    · rw [length_assignRoles, hlen']

/-- C3 witness: starting the three-player demo session with murderer
index 1 produces one murderer and two detectives. -/
theorem exactly_one_murderer_witness :
    (assignRoles demoPlayers 1).countP (fun p => decide (p.role = Role.murderer)) = 1 ∧
    (assignRoles demoPlayers 1).countP (fun p => decide (p.role = Role.detective)) =
      demoPlayers.length - 1 ∧
    (assignRoles demoPlayers 1).length = demoPlayers.length :=
  exactly_one_murderer "hostUser" demoSession demoPlayers demoPlayers
    (some demoStory) 1
    { demoSession with status := GameStatus.in_progress, current_round := 1 }
    (assignRoles demoPlayers 1) (List.Perm.refl _) (by decide) rfl

/-! ## C4: round advance -/

/-- C4: a host round advance on an in-progress session increments
`current_round` by exactly one (in particular it never decreases), and
the status becomes `voting` exactly when the new round value equals
`max_rounds`, remaining `in_progress` otherwise. -/
theorem round_advance (callerId : String) (session : GameSession)
    (hhost : callerId = session.host_id)
    (hstat : session.status = GameStatus.in_progress) :
    (nextRound callerId session).current_round = session.current_round + 1 ∧
    ((nextRound callerId session).status = GameStatus.voting ↔
      session.current_round + 1 = session.max_rounds) ∧
    (session.current_round + 1 ≠ session.max_rounds →
      (nextRound callerId session).status = GameStatus.in_progress) ∧
    session.current_round ≤ (nextRound callerId session).current_round := by
  subst hhost
  have hcr : (nextRound session.host_id session).current_round =
      session.current_round + 1 := by
    simp [nextRound]
  refine ⟨hcr, ?_, ?_, ?_⟩
  · by_cases hmax : session.current_round + 1 = session.max_rounds
    · simp [nextRound, hmax]
    · simp [nextRound, hmax, hstat]
  · intro hne
    simp [nextRound, hne, hstat]
  · rw [hcr]
    omega

/-- C4 witness: the host advancing the demo session from round 1 of 5
reaches round 2 and stays in progress. -/
theorem round_advance_witness :
    (nextRound "hostUser"
      { demoSession with status := GameStatus.in_progress, current_round := 1 }).current_round =
      ({ demoSession with status := GameStatus.in_progress, current_round := 1 } :
        GameSession).current_round + 1 ∧
    ((nextRound "hostUser"
      { demoSession with status := GameStatus.in_progress, current_round := 1 }).status =
        GameStatus.voting ↔
      ({ demoSession with status := GameStatus.in_progress, current_round := 1 } :
        GameSession).current_round + 1 =
        ({ demoSession with status := GameStatus.in_progress, current_round := 1 } :
          GameSession).max_rounds) ∧
    (({ demoSession with status := GameStatus.in_progress, current_round := 1 } :
        GameSession).current_round + 1 ≠
        ({ demoSession with status := GameStatus.in_progress, current_round := 1 } :
          GameSession).max_rounds →
      (nextRound "hostUser"
        { demoSession with status := GameStatus.in_progress, current_round := 1 }).status =
        GameStatus.in_progress) ∧
    ({ demoSession with status := GameStatus.in_progress, current_round := 1 } :
      GameSession).current_round ≤
      (nextRound "hostUser"
        { demoSession with status := GameStatus.in_progress, current_round := 1 }).current_round :=
  round_advance "hostUser"
    { demoSession with status := GameStatus.in_progress, current_round := 1 }
    rfl rfl

/-! ## C5: host-only transitions -/

/-- C5 counterexample: user `mallory` is not the host of the demo
session, yet `startGame` invoked from her client succeeds and moves the
waiting session to `in_progress` — the body of `startGame` performs no
host check (only the lobby UI hides the start control). -/
theorem nonhost_start_not_rejected :
    "mallory" ≠ demoSession.host_id ∧
    demoSession.status = GameStatus.waiting ∧
    startGame "mallory" demoSession demoPlayers (some demoStory) demoPlayers 0 =
      Except.ok
        ({ demoSession with status := GameStatus.in_progress, current_round := 1 },
          assignRoles demoPlayers 0) ∧
    GameStatus.in_progress ≠ demoSession.status :=
  ⟨by decide, rfl, rfl, by decide⟩

/-- C5 (amended): a non-host attempt at advancing the round or at ending
the voting phase is rejected without any effect on the session; the game
start, by contrast, is not caller-guarded in its body. -/
theorem nonhost_round_and_end_rejected (callerId : String)
    (session : GameSession) (h : callerId ≠ session.host_id) :
    nextRound callerId session = session ∧
    endVoting callerId session = session := by
  constructor <;> simp [nextRound, endVoting, h]

/-- C5 witness: `mallory` can neither advance the round of the demo
session nor end its voting. -/
theorem nonhost_round_and_end_rejected_witness :
    nextRound "mallory" demoSession = demoSession ∧
    endVoting "mallory" demoSession = demoSession :=
  nonhost_round_and_end_rejected "mallory" demoSession (by decide)

/-! ## C6: join rejection cases -/

/-- C6 counterexample: with a three-player cap, the demo session already
holds three players, yet a join request by `bob` — who is already a
member — succeeds idempotently (no error, no new row): the
existing-membership check runs before the capacity check, so a join at
full capacity is not always rejected. -/
theorem member_join_of_full_session_succeeds :
    demoPlayers.length = 3 ∧
    joinSession demoSession "" "bob" demoPlayers 3 demoCharacters
      "pNew" 0 = Except.ok (demoPlayer2, false, demoPlayers) :=
  ⟨rfl, rfl⟩

/-- C6 (amended): a join is rejected with the corresponding error — and
produces no player row, the store being untouched on every error — when
the code resolves to no session, when the session's password is set and
differs from the supplied one, when the status is not `waiting`, or when
the player count has reached the cap while the joiner is not already a
member; a joiner who already has a membership row (with password and
status checks passing) instead gets that row back idempotently, with no
error and no new row, even at full capacity. -/
theorem join_rejected_without_effect (sessions : List GameSession)
    (code password userId : String) (players : List GamePlayer)
    (maxPlayers : Nat) (characters : List Character)
    (newPlayerId : String) (pick : Nat) (session : GameSession) :
    (code.trim ≠ "" →
      sessions.find? (fun s => s.session_code == code.toUpper) = none →
      joinGame sessions code password userId players maxPlayers characters
        newPlayerId pick = Except.error JoinError.notFound) ∧
    (∀ pw, session.password = some pw → pw ≠ password →
      joinSession session password userId players maxPlayers characters
        newPlayerId pick = Except.error JoinError.wrongPassword) ∧
    (session.password.any (fun pw => pw != password) = false →
      session.status ≠ GameStatus.waiting →
      joinSession session password userId players maxPlayers characters
        newPlayerId pick = Except.error JoinError.notJoinable) ∧
    (session.password.any (fun pw => pw != password) = false →
      session.status = GameStatus.waiting →
      players.find? (fun p => p.user_id == userId) = none →
      maxPlayers ≤ players.length →
      joinSession session password userId players maxPlayers characters
        newPlayerId pick = Except.error JoinError.gameFull) ∧
    (∀ existing, session.password.any (fun pw => pw != password) = false →
      session.status = GameStatus.waiting →
      players.find? (fun p => p.user_id == userId) = some existing →
      joinSession session password userId players maxPlayers characters
        newPlayerId pick = Except.ok (existing, false, players)) := by
  refine ⟨?_, ?_, ?_, ?_, ?_⟩
  · intro hcode hfind
    simp [joinGame, hcode, hfind]
  · intro pw hpw hne
    simp [joinSession, hpw, hne]
  · intro hpw hstat
    simp [joinSession, hpw, hstat]
  · intro hpw hstat hfind hfull
    simp [joinSession, hpw, hstat, hfind, Nat.not_lt.mpr hfull,
      Nat.not_lt_of_le hfull]
  · intro existing hpw hstat hfind
    simp [joinSession, hpw, hstat, hfind]

/-- C6 witness: `carol`, already a member of the demo session, gets her
existing row back with no new row inserted. -/
theorem join_rejected_without_effect_witness :
    joinSession demoSession "" "carol" demoPlayers 8 demoCharacters "p9" 0 =
      Except.ok (demoPlayer3, false, demoPlayers) :=
  (join_rejected_without_effect [] "" "" "carol" demoPlayers 8 demoCharacters
    "p9" 0 demoSession).2.2.2.2 demoPlayer3 rfl rfl rfl

/-! ## C7: one vote per voter -/

/-- C7: a voter with a recorded vote in the session is rejected on any
further attempt; a successful cast only appends a fresh row (the prior
rows are never updated or overwritten) and is only possible when the
voter had no vote yet, so that one-vote-per-voter is preserved. -/
theorem vote_finality (votes : List Vote)
    (voteId sessionId voterId accusedId : String) :
    ((votes.find? (fun v => v.voter_id == voterId)).isSome = true →
      castVote votes voteId sessionId voterId accusedId =
        Except.error VoteError.alreadyVoted) ∧
    (∀ votes', castVote votes voteId sessionId voterId accusedId =
        Except.ok votes' →
      votes' = votes ++
        [{ id := voteId, session_id := sessionId, voter_id := voterId,
           accused_id := accusedId }] ∧
      votes.find? (fun v => v.voter_id == voterId) = none ∧
      ((votes.map (fun v => v.voter_id)).Nodup →
        (votes'.map (fun v => v.voter_id)).Nodup)) := by
  constructor
  · intro h
    simp [castVote, h]
  · intro votes' hok
    unfold castVote at hok
    split at hok
    · exact absurd hok (by simp)
    · rename_i hguard
      have hnone : votes.find? (fun v => v.voter_id == voterId) = none := by
        rcases h : votes.find? (fun v => v.voter_id == voterId) with _ | v
        · exact h
        · rw [h] at hguard
          exact absurd rfl hguard
      have hv : votes' = votes ++
          [{ id := voteId, session_id := sessionId, voter_id := voterId,
             accused_id := accusedId }] := by
        injection hok with h1
        exact h1.symm
      refine ⟨hv, hnone, ?_⟩
      intro hnodup
      have hnotmem : voterId ∉ votes.map (fun v => v.voter_id) := by
        intro hmem
        rcases List.mem_map.mp hmem with ⟨v, hvmem, hvid⟩
        have := List.find?_eq_none.mp hnone v hvmem
        simp [hvid] at this
      rw [hv, List.map_append]
      rw [List.nodup_append]
      refine ⟨hnodup, by simp, ?_⟩
      intro a ha hb
      simp only [List.map_cons, List.map_nil, List.mem_singleton] at hb
      subst hb
      exact hnotmem ha

/-- C7 witness: `bob`, having voted already, is rejected on a second
cast. -/
theorem vote_finality_witness :
    castVote
      [{ id := "v1", session_id := "sess1", voter_id := "bob",
         accused_id := "carol" }] "v2" "sess1" "bob" "hostUser" =
      Except.error VoteError.alreadyVoted :=
  (vote_finality
    [{ id := "v1", session_id := "sess1", voter_id := "bob",
       accused_id := "carol" }] "v2" "sess1" "bob" "hostUser").1 rfl

/-! ## C8: character uniqueness -/

/-- The element drawn from a nonempty pool by an in-range index belongs
to the pool. -/
theorem getD_mod_mem {l : List Character} (h : l.length ≠ 0) (i : Nat) :
    l.getD (i % l.length) default ∈ l := by
  have hlt : i % l.length < l.length := Nat.mod_lt _ (Nat.pos_of_ne_zero h)
  rw [List.getD_eq_getElem l default hlt]
  exact List.getElem_mem hlt

/-- An id of the available pool is not among the taken character ids. -/
theorem available_id_not_taken {players : List GamePlayer}
    {characters : List Character} {x : String}
    (hx : x ∈ (availableCharacters players characters).map (fun c => c.id)) :
    x ∉ players.map (fun q => q.character_id) := by
  rcases List.mem_map.mp hx with ⟨c, hc, rfl⟩
  have hf := (List.mem_filter.mp hc).2
  intro hmem
  have hcont : (players.map (fun p => p.character_id)).contains c.id = true := by
    simpa [List.elem_iff] using hmem
  rw [hcont] at hf
  exact absurd hf (by simp)

/-- Shape of a successful `joinSession`: either the idempotent re-use of
an existing membership (players unchanged), or the insertion of a single
new player whose character id is drawn from the available pool. -/
theorem joinSession_ok_cases (session : GameSession)
    (password userId : String) (players : List GamePlayer)
    (maxPlayers : Nat) (characters : List Character)
    (newPlayerId : String) (pick : Nat) (p : GamePlayer) (created : Bool)
    (ps' : List GamePlayer)
    (hok : joinSession session password userId players maxPlayers characters
      newPlayerId pick = Except.ok (p, created, ps')) :
    (created = false ∧ ps' = players ∧
      players.find? (fun q => q.user_id == userId) = some p) ∨
    (created = true ∧ ps' = players ++ [p] ∧
      players.find? (fun q => q.user_id == userId) = none ∧
      players.length < maxPlayers ∧
      p.character_id ∈ (availableCharacters players characters).map
        (fun c => c.id)) := by
  unfold joinSession at hok
  split at hok
  · exact absurd hok (by simp)
  · split at hok
    · exact absurd hok (by simp)
    · split at hok
      · rename_i existing hfind
        left
        injection hok with h1
        injection h1 with hp h2
        injection h2 with hcreated hps
        exact ⟨hcreated.symm, hps.symm, hp ▸ hfind⟩
      · rename_i hfind
        split at hok
        · exact absurd hok (by simp)
        · rename_i hcap
          dsimp only [] at hok
          split at hok
          · exact absurd hok (by simp)
          · rename_i hpool
            right
            injection hok with h1
            injection h1 with hp h2
            injection h2 with hcreated hps
            subst hp
            refine ⟨hcreated.symm, hps.symm, hfind, Nat.lt_of_not_le hcap, ?_⟩
            exact List.mem_map.mpr
              ⟨(availableCharacters players characters).getD
                (pick % (availableCharacters players characters).length) default,
                getD_mod_mem hpool pick, rfl⟩

/-- C8: joining preserves the no-two-players-share-a-character
invariant — a newly inserted player's character is drawn from the story's
characters minus the taken ones — and a first join (no existing
membership) against an exhausted character pool under capacity is
rejected with the pool-exhausted error and creates no player. -/
theorem character_uniqueness (session : GameSession)
    (password userId : String) (players : List GamePlayer)
    (maxPlayers : Nat) (characters : List Character)
    (newPlayerId : String) (pick : Nat) :
    (∀ p created ps',
      joinSession session password userId players maxPlayers characters
        newPlayerId pick = Except.ok (p, created, ps') →
      (players.map (fun q => q.character_id)).Nodup →
      (ps'.map (fun q => q.character_id)).Nodup) ∧
    (∀ p ps',
      joinSession session password userId players maxPlayers characters
        newPlayerId pick = Except.ok (p, true, ps') →
      p.character_id ∈ (availableCharacters players characters).map
        (fun c => c.id) ∧
      p.character_id ∉ players.map (fun q => q.character_id) ∧
      ps' = players ++ [p]) ∧
    (session.password.any (fun pw => pw != password) = false →
      session.status = GameStatus.waiting →
      players.find? (fun q => q.user_id == userId) = none →
      players.length < maxPlayers →
      availableCharacters players characters = [] →
      joinSession session password userId players maxPlayers characters
        newPlayerId pick = Except.error JoinError.noCharactersAvailable) := by
  refine ⟨?_, ?_, ?_⟩
  · intro p created ps' hok hnodup
    rcases joinSession_ok_cases session password userId players maxPlayers
      characters newPlayerId pick p created ps' hok with
      ⟨_, hps, _⟩ | ⟨_, hps, _, _, hmem⟩
    · rw [hps]
      exact hnodup
    · rw [hps, List.map_append, List.nodup_append]
      refine ⟨hnodup, by simp, ?_⟩
      intro a ha hb
      simp only [List.map_cons, List.map_nil, List.mem_singleton] at hb
      subst hb
      exact available_id_not_taken hmem ha
  · intro p ps' hok
    rcases joinSession_ok_cases session password userId players maxPlayers
      characters newPlayerId pick p true ps' hok with
      ⟨hfalse, _, _⟩ | ⟨_, hps, _, _, hmem⟩
    · exact absurd hfalse (by simp)
    · exact ⟨hmem, available_id_not_taken hmem, hps⟩
  · intro hpw hstat hfind hcap hpool
    simp [joinSession, hpw, hstat, hfind, Nat.not_le.mpr hcap, hpool]

/-- C8 witness: `dave` tries a first join of the demo session whose three
characters are all taken; the join is rejected for pool exhaustion. -/
theorem character_uniqueness_witness :
    joinSession demoSession "" "dave" demoPlayers 8 demoCharacters "p9" 0 =
      Except.error JoinError.noCharactersAvailable :=
  (character_uniqueness demoSession "" "dave" demoPlayers 8 demoCharacters
    "p9" 0).2.2 rfl rfl rfl (by decide) rfl

/-! ## C9: minimum player count -/

/-- C9: a start attempt with fewer players than the story's minimum is
rejected with the validation error; the session and the players are
untouched (an error outcome performs no write). -/
theorem start_below_min_rejected (callerId : String) (session : GameSession)
    (players shuffled : List GamePlayer) (story : Story)
    (murdererIndex : Nat) (h : players.length < story.min_players) :
    startGame callerId session players (some story) shuffled murdererIndex =
      Except.error StartError.notEnoughPlayers := by
  have hmin : players.length < minPlayersOrDefault (some story) := by
    simp only [minPlayersOrDefault]
    by_cases h0 : story.min_players = 0
    · rw [if_pos h0]
      omega
    · rw [if_neg h0]
      exact h
  simp [startGame, hmin]

/-- C9 witness: two players cannot start the demo story, which needs
three. -/
theorem start_below_min_rejected_witness :
    startGame "hostUser" demoSession [demoPlayer1, demoPlayer2]
      (some demoStory) [demoPlayer1, demoPlayer2] 0 =
      Except.error StartError.notEnoughPlayers :=
  start_below_min_rejected "hostUser" demoSession [demoPlayer1, demoPlayer2]
    [demoPlayer1, demoPlayer2] demoStory 0 (by decide)

/-! ## C10: the first round after start -/

/-- C10: every successful start writes `current_round = 1` together with
the `in_progress` status, so play always begins at round 1, never
round 0. -/
theorem start_sets_round_one (callerId : String) (session : GameSession)
    (players shuffled : List GamePlayer) (story : Option Story)
    (murdererIndex : Nat) (s' : GameSession) (ps' : List GamePlayer)
    (hok : startGame callerId session players story shuffled murdererIndex =
      Except.ok (s', ps')) :
    s'.current_round = 1 ∧ s'.status = GameStatus.in_progress := by
  unfold startGame at hok
  split at hok
  · exact absurd hok (by simp)
  · injection hok with h1
    injection h1 with ha _
    rw [ha.symm]
    exact ⟨rfl, rfl⟩

/-- C10 witness: starting the three-player demo session lands on round 1
in progress. -/
theorem start_sets_round_one_witness :
    ({ demoSession with status := GameStatus.in_progress, current_round := 1 } :
      GameSession).current_round = 1 ∧
    ({ demoSession with status := GameStatus.in_progress, current_round := 1 } :
      GameSession).status = GameStatus.in_progress :=
  start_sets_round_one "hostUser" demoSession demoPlayers demoPlayers
    (some demoStory) 0
    { demoSession with status := GameStatus.in_progress, current_round := 1 }
    (assignRoles demoPlayers 0) rfl

end SecretSleuth
